import Mathlib

/-!
Shallow embedding of the capability-registration and request-dispatch core
of the EasyMCP server (`src/lib/EasyMCP.ts` and `src/lib/decorators/Tool.ts`).

Registries (tools, prompts, roots, static resources, resource templates)
are embedded as lists in registration order.  The manager classes
(`ResourceManager`, `ToolManager`, `PromptManager`, `RootsManager`), the
`Context` class and `LogFormatter` are not part of the provided source;
where their behaviour decides a claim they are modelled from the spec and
marked as such in their doc comments.  Everything else is translated
directly from `EasyMCP.ts`.
-/

/-- A static resource: unique `uri`, metadata, and a content handler.
The handler may fail with an error message (an exception in the source). -/
structure StaticResource where
  uri : String
  name : String
  description : String
  mimeType : String
  fn : Unit → Except String String

/-- A resource template: a `uriTemplate` pattern with `\x7bvariable\x7d`
placeholders, metadata, and a handler over the captured variables. -/
structure ResourceTemplate where
  uriTemplate : String
  name : String
  description : String
  mimeType : String
  fn : List (String × String) → Except String String

/-- One declared input of a tool (`InputSpec` in the source). -/
structure ToolInput where
  name : String
  type : String
  description : String
  required : Bool

/-- A registered tool: name, description, declared inputs, handler.
The handler receives the argument map and may fail with a message. -/
structure Tool where
  name : String
  description : String
  inputs : List ToolInput
  fn : List (String × String) → Except String String

/-- A registered prompt. -/
structure Prompt where
  name : String
  description : String
  fn : List (String × String) → Except String String

/-- A workspace root: inert record, no handler. -/
structure Root where
  uri : String
  name : String

/-- The state of all registries held by a `BaseMCP` instance, in
registration order: the two `ResourceManager` stores, and the tool,
prompt and root registries. -/
structure RegistryState where
  resources : List StaticResource
  templates : List ResourceTemplate
  tools : List Tool
  prompts : List Prompt
  roots : List Root

/-- The empty registry state produced by the `BaseMCP` constructor. -/
def RegistryState.empty : RegistryState :=
  { resources := [], templates := [], tools := [], prompts := [], roots := [] }

/-- Modelled from the spec: `LOG_LEVELS` lives in `LogFormatter` (not in
the provided source); the spec calls it "a small fixed set of severity
levels".  The concrete levels are the standard MCP severities. -/
def LOG_LEVELS : List String :=
  ["debug", "info", "notice", "warning", "error", "critical", "alert", "emergency"]

/-- The advertised capability set (`ServerCapabilities` in the source):
each registry-backed capability is present (`true`) or absent, and the
logging capability carries its level list when present. -/
structure ServerCapabilities where
  resources : Bool
  logging : Option (List String)
  tools : Bool
  prompts : Bool
  roots : Bool
deriving DecidableEq, Repr

/-- `BaseMCP.registerCapabilities`: computes the advertised capability set
from registry cardinalities.  Resources are advertised when either the
static-resource store or the template store is non-empty; logging is
always advertised with `LOG_LEVELS`; tools, prompts and roots are
advertised exactly when their registry is non-empty. -/
def registerCapabilities (s : RegistryState) : ServerCapabilities :=
  { resources := s.resources.length ≠ 0 || s.templates.length ≠ 0
    logging := some LOG_LEVELS
    tools := s.tools.length ≠ 0
    prompts := s.prompts.length ≠ 0
    roots := s.roots.length ≠ 0 }

/-- `BaseMCP.tool`: registers a tool (append, mirroring ordered
registration). -/
def RegistryState.tool (s : RegistryState) (t : Tool) : RegistryState :=
  { s with tools := s.tools ++ [t] }

/-- `BaseMCP.prompt`: registers a prompt. -/
def RegistryState.prompt (s : RegistryState) (p : Prompt) : RegistryState :=
  { s with prompts := s.prompts ++ [p] }

/-- `BaseMCP.root`: registers a root (`RootsManager.add` appends
unconditionally). -/
def RegistryState.root (s : RegistryState) (r : Root) : RegistryState :=
  { s with roots := s.roots ++ [r] }

/-- `BaseMCP.resource`: registers a static resource. -/
def RegistryState.resource (s : RegistryState) (r : StaticResource) : RegistryState :=
  { s with resources := s.resources ++ [r] }

/-- `BaseMCP.template`: registers a resource template (append; no
uniqueness check). -/
def RegistryState.template (s : RegistryState) (t : ResourceTemplate) : RegistryState :=
  { s with templates := s.templates ++ [t] }

/-- The snapshot returned by `BaseMCP.listCapabilities`: the full entry
lists of the five stores. -/
structure CapabilityLists where
  resources : List StaticResource
  resourceTemplates : List ResourceTemplate
  tools : List Tool
  prompts : List Prompt
  roots : List Root

/-- `BaseMCP.listCapabilities`. -/
def listCapabilities (s : RegistryState) : CapabilityLists :=
  { resources := s.resources
    resourceTemplates := s.templates
    tools := s.tools
    prompts := s.prompts
    roots := s.roots }

/-- The request kinds the dispatcher can bind a handler for. -/
inductive RequestKind
  | listResources
  | listResourceTemplates
  | readResource
  | listTools
  | callTool
  | listPrompts
  | getPrompt
  | listRoots
deriving DecidableEq, Repr

/-- `BaseMCP.registerCoreHandlers`: the set of request kinds that get a
handler bound at connect time, in binding order.  Resource handlers are
bound when `listCapabilities().resources` (the static-resource list) is
non-empty; tool, prompt and root handlers when their list is
non-empty. -/
def registerCoreHandlers (s : RegistryState) : List RequestKind :=
  (if (listCapabilities s).resources.length ≠ 0 then
    [RequestKind.listResources, RequestKind.listResourceTemplates, RequestKind.readResource]
   else []) ++
  (if (listCapabilities s).tools.length ≠ 0 then
    [RequestKind.listTools, RequestKind.callTool]
   else []) ++
  (if (listCapabilities s).prompts.length ≠ 0 then
    [RequestKind.listPrompts, RequestKind.getPrompt]
   else []) ++
  (if (listCapabilities s).roots.length ≠ 0 then [RequestKind.listRoots] else [])

/-- A compiled segment of a URI template: a literal run of characters or
a `\x7bvariable\x7d` placeholder. -/
inductive Seg
  | lit (s : String)
  | var (v : String)
deriving DecidableEq, Repr

/-- Modelled from the spec: compilation of a `uriTemplate` string into
literal/variable segments (`ResourceManager` is not in the provided
source).  `inVar` says whether we are inside a placeholder; `acc` holds
the characters of the current segment in reverse. -/
def parseAux (inVar : Bool) (acc : List Char) : List Char → List Seg
  | [] =>
    if inVar then [Seg.var (String.mk acc.reverse)]
    else if acc.isEmpty then [] else [Seg.lit (String.mk acc.reverse)]
  | c :: cs =>
    if inVar then
      if c = Char.ofNat 125 then
        Seg.var (String.mk acc.reverse) :: parseAux false [] cs
      else parseAux true (c :: acc) cs
    else
      if c = Char.ofNat 123 then
        (if acc.isEmpty then [] else [Seg.lit (String.mk acc.reverse)]) ++ parseAux true [] cs
      else parseAux false (c :: acc) cs

/-- Compile a `uriTemplate` pattern into its segment list. -/
def compileTemplate (t : String) : List Seg :=
  parseAux false [] t.data

/-- Strip an exact literal from the front of the URI characters;
`none` when the literal does not match byte-for-byte. -/
def dropLit : List Char → List Char → Option (List Char)
  | [], cs => some cs
  | _ :: _, [] => none
  | l :: ls, c :: cs => if l = c then dropLit ls cs else none

/-- Scan forward for the first position where the literal matches,
returning the captured characters before it and the characters after
it. -/
def scanLit (l : List Char) : List Char → Option (List Char × List Char)
  | [] =>
    match dropLit l [] with
    | some rest => some ([], rest)
    | none => none
  | c :: cs =>
    match dropLit l (c :: cs) with
    | some rest => some ([], rest)
    | none =>
      match scanLit l cs with
      | some (cap, rest) => some (c :: cap, rest)
      | none => none

/-- Modelled from the spec: positional matching of a compiled template
against a URI.  Literal segments must match byte-for-byte; a variable
segment captures up to the next literal boundary, or to the end of the
string for a trailing variable.  Returns the captured variables on
success. -/
def matchSegsF : Nat → List Seg → List Char → Option (List (String × String))
  | _, [], [] => some []
  | _, [], _ :: _ => none
  | _, [Seg.var v], cs => some [(v, String.mk cs)]
  | 0, _, _ => none
  | fuel + 1, Seg.lit l :: rest, cs =>
    match dropLit l.data cs with
    | some cs2 => matchSegsF fuel rest cs2
    | none => none
  | fuel + 1, Seg.var v :: Seg.lit l :: rest2, cs =>
    match scanLit l.data cs with
    | some (cap, cs2) =>
      match matchSegsF fuel rest2 cs2 with
      | some m => some ((v, String.mk cap) :: m)
      | none => none
    | none => none
  | fuel + 1, Seg.var v :: Seg.var w :: rest2, cs =>
    match matchSegsF fuel (Seg.var w :: rest2) cs with
    | some m => some ((v, "") :: m)
    | none => none

/-- Positional template matching.  The fuel argument of `matchSegsF` is
the segment count: every recursive call consumes one fuel and at least
one segment, so the fuel never runs out. -/
def matchSegs (segs : List Seg) (cs : List Char) : Option (List (String × String)) :=
  matchSegsF segs.length segs cs

/-- The first registered template matching the URI, with its captured
variables (templates are matched in registration order; first match
wins). -/
def firstTemplateMatch (uri : String) : List ResourceTemplate →
    Option (ResourceTemplate × List (String × String))
  | [] => none
  | t :: ts =>
    match matchSegs (compileTemplate t.uriTemplate) uri.data with
    | some vars => some (t, vars)
    | none => firstTemplateMatch uri ts

/-- The typed failures `ResourceManager.get` can raise:
`ResourceNotFoundError` or a handler-raised `ResourceError` carrying a
message. -/
inductive ResError
  | notFound
  | err (msg : String)
deriving DecidableEq, Repr

/-- The message carried by a resource failure (`e.message` in the
dispatcher's catch clause). -/
def ResError.message : ResError → String
  | ResError.notFound => "Resource not found"
  | ResError.err m => m

/-- One content item of a read-resource response. -/
structure ResourceContents where
  uri : String
  mimeType : String
  text : String
deriving DecidableEq, Repr

/-- A read-resource response envelope. -/
structure ReadResourceResult where
  contents : List ResourceContents
deriving DecidableEq, Repr

/-- Modelled from the spec: `ResourceManager.get(uri)` (not in the
provided source).  (1) exact match against static resources, invoking
the resource handler; (2) else first matching template in registration
order, invoking its handler on the captured variables; (3) else fail
with `ResourceNotFoundError`.  A handler that raises is wrapped as
`ResourceError` with the original message. -/
def ResourceManager.get (s : RegistryState) (uri : String) :
    Except ResError ReadResourceResult :=
  match s.resources.find? (fun r => r.uri == uri) with
  | some r =>
    match r.fn () with
    | Except.ok content =>
      Except.ok { contents := [{ uri := uri, mimeType := r.mimeType, text := content }] }
    | Except.error msg => Except.error (ResError.err msg)
  | none =>
    match firstTemplateMatch uri s.templates with
    | some (t, vars) =>
      match t.fn vars with
      | Except.ok content =>
        Except.ok { contents := [{ uri := uri, mimeType := t.mimeType, text := content }] }
      | Except.error msg => Except.error (ResError.err msg)
    | none => Except.error ResError.notFound

/-- The read-resource request handler bound by
`BaseMCP.registerCoreHandlers`: forwards `ResourceManager.get`,
converting `ResourceNotFoundError` into a successful plain-text
placeholder echoing the URI, and re-raising any other failure as
`ResourceError` with the original message. -/
def readResourceHandler (s : RegistryState) (uri : String) :
    Except ResError ReadResourceResult :=
  match ResourceManager.get s uri with
  | Except.ok r => Except.ok r
  | Except.error ResError.notFound =>
    Except.ok
      { contents := [{ uri := uri, mimeType := "text/plain", text := "Resource not found" }] }
  | Except.error e => Except.error (ResError.err e.message)

/-- Modelled from the spec: `LogFormatter.format` (not in the provided
source); the formatting policy (e.g. a level marker) is a collaborator
concern, so any concrete choice serves. -/
def LogFormatter.format (level message : String) : String :=
  level ++ ": " ++ message

/-- A logging message forwarded to the session. -/
structure LogMessage where
  level : String
  message : String
deriving DecidableEq, Repr

/-- `BaseMCP.sendLog`: when `this.server` is still `null` (i.e. `serve()`
has not initialized the server), it throws `Server not initialized.
Call serve() first.`; otherwise it forwards the formatted message. -/
def sendLog (server : Option Unit) (level message : String) :
    Except String LogMessage :=
  match server with
  | none => Except.error "Server not initialized. Call serve() first."
  | some _ => Except.ok { level := level, message := LogFormatter.format level message }

/-- The outcome of `BaseMCP.serve`: either the session reaches the
serving state with the negotiated capability set, or the process exits
with a status code after writing the log lines. -/
inductive ServeOutcome
  | serving (caps : ServerCapabilities)
  | exit (logged : List String) (code : Nat)
deriving DecidableEq, Repr

/-- `BaseMCP.serve`: one try/catch around transport creation, server
construction with `registerCapabilities`, `registerCoreHandlers` and
transport connect; any exception is logged (`Error starting server`)
and the process exits with status 1.  The fallible collaborator steps
are passed as parameters. -/
def serve (s : RegistryState) (mkTransport bindHandlers connect : Except String Unit) :
    ServeOutcome :=
  match mkTransport with
  | Except.error e => ServeOutcome.exit ["Error starting server " ++ e] 1
  | Except.ok _ =>
    match bindHandlers with
    | Except.error e => ServeOutcome.exit ["Error starting server " ++ e] 1
    | Except.ok _ =>
      match connect with
      | Except.error e => ServeOutcome.exit ["Error starting server " ++ e] 1
      | Except.ok _ => ServeOutcome.serving (registerCapabilities s)

/-- The typed failures of a call-tool request. -/
inductive ToolCallError
  | toolNotFound
  | missingArgument (param : String)
  | execError (msg : String)
  | serverNotInitialized
deriving DecidableEq, Repr

/-- Modelled from the spec: `ToolManager.call` (not in the provided
source): look up the tool by name (`ToolNotFoundError` if absent); every
`InputSpec` marked required must have its key present in `args`
(`MissingArgumentError(paramName)`), extra keys pass through; invoke the
handler; a handler exception becomes `ToolExecutionError` with the
message preserved. -/
def ToolManager.call (tools : List Tool) (name : String)
    (args : List (String × String)) : Except ToolCallError String :=
  match tools.find? (fun t => t.name == name) with
  | none => Except.error ToolCallError.toolNotFound
  | some t =>
    match t.inputs.find? (fun i => i.required && !(args.map Prod.fst).contains i.name) with
    | some i => Except.error (ToolCallError.missingArgument i.name)
    | none =>
      match t.fn args with
      | Except.ok r => Except.ok r
      | Except.error m => Except.error (ToolCallError.execError m)

/-- One content item of a call-tool response. -/
structure ToolContent where
  type : String
  text : String
deriving DecidableEq, Repr

/-- A call-tool response envelope. -/
structure CallToolResult where
  content : List ToolContent
deriving DecidableEq, Repr

/-- The call-tool request handler bound by `registerCoreHandlers`:
creates the call context (`createContext` throws when the server is not
initialized), invokes `ToolManager.call`, and wraps the returned text as
a single `text` content item. -/
def callToolHandler (s : RegistryState) (server : Option Unit) (name : String)
    (args : List (String × String)) : Except ToolCallError CallToolResult :=
  match server with
  | none => Except.error ToolCallError.serverNotInitialized
  | some _ =>
    match ToolManager.call s.tools name args with
    | Except.ok result => Except.ok { content := [{ type := "text", text := result }] }
    | Except.error e => Except.error e

/-- A declared handler parameter as seen by the decorator's metadata
extraction. -/
structure Param where
  name : String
  type : String
  optional : Bool
deriving DecidableEq, Repr

/-- The config object passed to the `Tool` decorator. -/
structure FunctionConfig where
  description : Option String
deriving DecidableEq, Repr

/-- The `Tool` decorator (`src/lib/decorators/Tool.ts`): builds the
`ToolConfig` attached to the method — `name` from the property key,
`description` from the config (empty when absent), one input spec per
declared parameter with `required := !param.optional`, and the original
method as handler. -/
def ToolDecorator (propertyKey : String) (config : FunctionConfig)
    (params : List Param) (fn : List (String × String) → Except String String) : Tool :=
  { name := propertyKey
    description := config.description.getD ""
    inputs := params.map (fun p =>
      { name := p.name
        type := p.type
        description := "a " ++ p.name ++ " of type " ++ p.type
        required := !p.optional })
    fn := fn }

/-- The decorator metadata attached to one method under `metadataKey`:
at most one config of each capability kind. -/
structure MethodMetadata where
  toolConfig : Option Tool
  promptConfig : Option Prompt
  rootConfig : Option Root
  resourceConfig : Option StaticResource
  resourceTemplateConfig : Option ResourceTemplate

/-- An observable event of the `EasyMCP` constructor, in execution
order. -/
inductive CtorEvent
  | registerRoot (r : Root)
  | registerTool (t : Tool)
  | registerPrompt (p : Prompt)
  | registerResource (r : StaticResource)
  | registerTemplate (t : ResourceTemplate)
  | serveCall

/-- The registrations the constructor performs for one method, in source
order: tool, prompt, root, resource, template. -/
def applyMethod (s : RegistryState) (m : MethodMetadata) : RegistryState :=
  let s1 := match m.toolConfig with | some t => s.tool t | none => s
  let s2 := match m.promptConfig with | some p => s1.prompt p | none => s1
  let s3 := match m.rootConfig with | some r => s2.root r | none => s2
  let s4 := match m.resourceConfig with | some r => s3.resource r | none => s3
  match m.resourceTemplateConfig with | some t => s4.template t | none => s4

/-- The constructor events produced while processing one method. -/
def methodEvents (m : MethodMetadata) : List CtorEvent :=
  (match m.toolConfig with | some t => [CtorEvent.registerTool t] | none => []) ++
  (match m.promptConfig with | some p => [CtorEvent.registerPrompt p] | none => []) ++
  (match m.rootConfig with | some r => [CtorEvent.registerRoot r] | none => []) ++
  (match m.resourceConfig with | some r => [CtorEvent.registerResource r] | none => []) ++
  (match m.resourceTemplateConfig with | some t => [CtorEvent.registerTemplate t] | none => [])

/-- The `EasyMCP` subclass constructor: initialize empty registries,
apply the class-level root configs, then each decorated method's
configs, and finally call `serve()`.  Returns the event trace in
execution order together with serve's outcome over the final registry
state. -/
def EasyMCP.construct (rootConfigs : List Root) (methods : List MethodMetadata)
    (mkTransport bindHandlers connect : Except String Unit) :
    List CtorEvent × ServeOutcome :=
  let s1 := rootConfigs.foldl RegistryState.root RegistryState.empty
  let s2 := methods.foldl applyMethod s1
  (rootConfigs.map CtorEvent.registerRoot ++ (methods.map methodEvents).flatten ++
      [CtorEvent.serveCall],
    serve s2 mkTransport bindHandlers connect)

/-- C4: for every registry (tools, prompts, roots, resources), the
capability set computed at connect time contains that registry's flag iff
the registry is non-empty at that moment, and registering one entry
before connect makes the flag appear in the next negotiation. -/
theorem registerCapabilities_flag_iff_nonempty (s : RegistryState) :
    ((registerCapabilities s).tools = true ↔ s.tools ≠ []) ∧
    ((registerCapabilities s).prompts = true ↔ s.prompts ≠ []) ∧
    ((registerCapabilities s).roots = true ↔ s.roots ≠ []) ∧
    ((registerCapabilities s).resources = true ↔ (s.resources ≠ [] ∨ s.templates ≠ [])) ∧
    (∀ t, (registerCapabilities (s.tool t)).tools = true) ∧
    (∀ p, (registerCapabilities (s.prompt p)).prompts = true) ∧
    (∀ r, (registerCapabilities (s.root r)).roots = true) ∧
    (∀ r, (registerCapabilities (s.resource r)).resources = true) := by
  simp [registerCapabilities, RegistryState.tool, RegistryState.prompt,
    RegistryState.root, RegistryState.resource,
    List.length_eq_zero, ← List.length_pos_iff_ne_nil]

/-- C9: the capability set produced at connect time contains the logging
capability flag with the fixed level set, regardless of registry
contents. -/
theorem registerCapabilities_logging_always (s : RegistryState) :
    (registerCapabilities s).logging = some LOG_LEVELS := by
  rfl

/-- The template of the spec running example: serves `file://x.log` style
URIs as `log:x`. -/
def logTemplate : ResourceTemplate :=
  { uriTemplate := "file://\x7bname\x7d.log"
    name := "log"
    description := "log files"
    mimeType := "text/plain"
    fn := fun vars => Except.ok ("log:" ++ ((vars.lookup "name").getD "")) }

/-- A registry state holding one resource template and nothing else. -/
def templatesOnlyState : RegistryState :=
  { resources := [], templates := [logTemplate], tools := [], prompts := [], roots := [] }

/-- C1 counterexample: with one template and no static resource, the
resources capability is advertised, yet none of the resource request
handlers (in particular read-resource) is bound, because the dispatcher
checks only the static-resource list. -/
theorem registerCoreHandlers_c1_counterexample :
    (registerCapabilities templatesOnlyState).resources = true ∧
    RequestKind.readResource ∉ registerCoreHandlers templatesOnlyState ∧
    RequestKind.listResources ∉ registerCoreHandlers templatesOnlyState ∧
    RequestKind.listResourceTemplates ∉ registerCoreHandlers templatesOnlyState := by
  refine ⟨rfl, ?_, ?_, ?_⟩ <;> simp [registerCoreHandlers, listCapabilities, templatesOnlyState]

/-- C2: a read-resource request for a URI with no matching static
resource and no matching template returns a successful plain-text
placeholder echoing the requested URI, not a protocol-level error. -/
theorem readResource_no_match_placeholder (s : RegistryState) (uri : String)
    (h1 : s.resources.find? (fun r => r.uri == uri) = none)
    (h2 : firstTemplateMatch uri s.templates = none) :
    readResourceHandler s uri =
      Except.ok
        { contents := [{ uri := uri, mimeType := "text/plain", text := "Resource not found" }] } := by
  simp [readResourceHandler, ResourceManager.get, h1, h2]

/-- C2 witness: with the log template registered and the non-matching
URI `file://missing`, the handler returns the placeholder — even though
a template exists. -/
theorem readResource_no_match_placeholder_witness :
    templatesOnlyState.resources.find? (fun r => r.uri == "file://missing") = none ∧
    firstTemplateMatch "file://missing" templatesOnlyState.templates = none ∧
    readResourceHandler templatesOnlyState "file://missing" =
      Except.ok
        { contents :=
            [{ uri := "file://missing", mimeType := "text/plain", text := "Resource not found" }] } :=
  ⟨rfl, rfl, readResource_no_match_placeholder templatesOnlyState "file://missing" rfl rfl⟩

/-- C6: any failure of a read-resource request other than
`ResourceNotFoundError` is re-raised as `ResourceError` carrying the
original message, propagating as a protocol-level failure. -/
theorem readResource_wraps_error (s : RegistryState) (uri : String) (e : ResError)
    (h1 : ResourceManager.get s uri = Except.error e)
    (h2 : e ≠ ResError.notFound) :
    readResourceHandler s uri = Except.error (ResError.err e.message) := by
  cases e with
  | notFound => exact absurd rfl h2
  | err m => simp [readResourceHandler, h1, ResError.message]

/-- A static resource whose handler raises. -/
def failingResource : StaticResource :=
  { uri := "file://boom"
    name := "boom"
    description := "always raises"
    mimeType := "text/plain"
    fn := fun _ => Except.error "boom failed" }

/-- A registry state holding only the raising static resource. -/
def failingResourceState : RegistryState :=
  { resources := [failingResource], templates := [], tools := [], prompts := [], roots := [] }

/-- C6 witness: a static-resource handler that raises `boom failed`
yields a protocol-level `ResourceError` with that exact message. -/
theorem readResource_wraps_error_witness :
    ResourceManager.get failingResourceState "file://boom" =
      Except.error (ResError.err "boom failed") ∧
    ResError.err "boom failed" ≠ ResError.notFound ∧
    readResourceHandler failingResourceState "file://boom" =
      Except.error (ResError.err "boom failed") :=
  ⟨rfl, by decide,
    readResource_wraps_error failingResourceState "file://boom" (ResError.err "boom failed")
      rfl (by decide)⟩

/-- C1 (amended): each request handler is bound iff the registry the
dispatcher consults for it is non-empty — the three resource handlers
iff the static-resource list is non-empty (templates alone bind
nothing), list/call tools iff the tool registry is non-empty, list/get
prompts iff the prompt registry is non-empty, list-roots iff the root
registry is non-empty.  In particular a capability whose registries are
empty gets no handler bound at all. -/
theorem registerCoreHandlers_bound_iff (s : RegistryState) :
    (RequestKind.listResources ∈ registerCoreHandlers s ↔ s.resources ≠ []) ∧
    (RequestKind.listResourceTemplates ∈ registerCoreHandlers s ↔ s.resources ≠ []) ∧
    (RequestKind.readResource ∈ registerCoreHandlers s ↔ s.resources ≠ []) ∧
    (RequestKind.listTools ∈ registerCoreHandlers s ↔ s.tools ≠ []) ∧
    (RequestKind.callTool ∈ registerCoreHandlers s ↔ s.tools ≠ []) ∧
    (RequestKind.listPrompts ∈ registerCoreHandlers s ↔ s.prompts ≠ []) ∧
    (RequestKind.getPrompt ∈ registerCoreHandlers s ↔ s.prompts ≠ []) ∧
    (RequestKind.listRoots ∈ registerCoreHandlers s ↔ s.roots ≠ []) := by
  obtain ⟨res, tem, tls, prs, rts⟩ := s
  cases res <;> cases tls <;> cases prs <;> cases rts <;>
    simp [registerCoreHandlers, listCapabilities]

/-- C3 counterexample: a log message sent before `serve()` has
initialized the server raises `Server not initialized. Call serve()
first.` — it is not a silent no-op. -/
theorem sendLog_before_connect_counterexample :
    sendLog none "info" "hello" =
      Except.error "Server not initialized. Call serve() first." := rfl

/-- C3 (amended): a log message sent before the session has completed
its connect handshake raises a `Server not initialized` error instead of
failing silently as a no-op. -/
theorem sendLog_before_connect_raises (level message : String) :
    sendLog none level message =
      Except.error "Server not initialized. Call serve() first." := rfl

/-- C5: any exception during `serve()` — transport creation, handler
binding, or transport connect — leads to a logged diagnostic and a
process exit with status 1; there is no partial-serving state. -/
theorem serve_exception_fatal (s : RegistryState) (t b c : Except String Unit)
    (h : t ≠ Except.ok () ∨ b ≠ Except.ok () ∨ c ≠ Except.ok ()) :
    ∃ msgs, serve s t b c = ServeOutcome.exit msgs 1 ∧ msgs ≠ [] := by
  cases t with
  | error e => exact ⟨_, rfl, by simp⟩
  | ok u =>
    cases b with
    | error e => exact ⟨_, rfl, by simp⟩
    | ok v =>
      cases c with
      | error e => exact ⟨_, rfl, by simp⟩
      | ok w =>
        cases u; cases v; cases w
        rcases h with h | h | h <;> exact absurd rfl h

/-- C5 witness: a failing transport creation (`ECONNREFUSED`) over empty
registries exits with status 1 after logging. -/
theorem serve_exception_fatal_witness :
    ((Except.error "ECONNREFUSED" : Except String Unit) ≠ Except.ok () ∨
      (Except.ok () : Except String Unit) ≠ Except.ok () ∨
      (Except.ok () : Except String Unit) ≠ Except.ok ()) ∧
    ∃ msgs,
      serve RegistryState.empty (Except.error "ECONNREFUSED") (Except.ok ()) (Except.ok ()) =
        ServeOutcome.exit msgs 1 ∧ msgs ≠ [] :=
  ⟨Or.inl (by simp), serve_exception_fatal RegistryState.empty _ _ _ (Or.inl (by simp))⟩

/-- C7: a successful call-tool invocation wraps the handler's text
result as exactly one content item of type `text`. -/
theorem callTool_success_single_text (s : RegistryState) (server : Option Unit)
    (name : String) (args : List (String × String)) (result : String)
    (hs : server = some ())
    (hc : ToolManager.call s.tools name args = Except.ok result) :
    callToolHandler s server name args =
      Except.ok { content := [{ type := "text", text := result }] } := by
  subst hs
  simp [callToolHandler, hc]

/-- A tool that echoes its `message` argument. -/
def echoTool : Tool :=
  { name := "echo"
    description := "echoes its message"
    inputs := [{ name := "message", type := "string",
                 description := "a message of type string", required := true }]
    fn := fun args => Except.ok ((args.lookup "message").getD "") }

/-- A registry state holding only the echo tool. -/
def echoToolState : RegistryState :=
  { resources := [], templates := [], tools := [echoTool], prompts := [], roots := [] }

/-- C7 witness: calling `echo` with `message := hi` produces the single
text content item `hi`. -/
theorem callTool_success_single_text_witness :
    (some () = some ()) ∧
    ToolManager.call echoToolState.tools "echo" [("message", "hi")] = Except.ok "hi" ∧
    callToolHandler echoToolState (some ()) "echo" [("message", "hi")] =
      Except.ok { content := [{ type := "text", text := "hi" }] } :=
  ⟨rfl, rfl,
    callTool_success_single_text echoToolState (some ()) "echo" [("message", "hi")] "hi"
      rfl rfl⟩

/-- C8: the `Tool` decorator marks each derived input spec required iff
the declared parameter is not optional. -/
theorem toolDecorator_required_iff_not_optional (propertyKey : String)
    (config : FunctionConfig) (params : List Param)
    (fn : List (String × String) → Except String String) :
    (ToolDecorator propertyKey config params fn).inputs.map (fun i => i.required) =
      params.map (fun p => !p.optional) := by
  simp [ToolDecorator, List.map_map, Function.comp]

/-- The serve call never appears among the events of one method's
registrations. -/
theorem serveCall_not_mem_methodEvents (m : MethodMetadata) :
    CtorEvent.serveCall ∉ methodEvents m := by
  rcases m with ⟨tc, pc, rc, sc, tpl⟩
  cases tc <;> cases pc <;> cases rc <;> cases sc <;> cases tpl <;>
    simp [methodEvents]

/-- C10: in the `EasyMCP` constructor's event trace the serve call is
the last event and no registration follows it, and on a successful
handshake the negotiated capability set is computed from the fully
registered registry state (class-level roots, then every method's
decorator configs). -/
theorem EasyMCP_construct_registrations_before_serve
    (rootConfigs : List Root) (methods : List MethodMetadata)
    (t b c : Except String Unit) :
    (EasyMCP.construct rootConfigs methods t b c).1.getLast? = some CtorEvent.serveCall ∧
    CtorEvent.serveCall ∉ (EasyMCP.construct rootConfigs methods t b c).1.dropLast ∧
    (t = Except.ok () → b = Except.ok () → c = Except.ok () →
      (EasyMCP.construct rootConfigs methods t b c).2 =
        ServeOutcome.serving (registerCapabilities
          (methods.foldl applyMethod
            (rootConfigs.foldl RegistryState.root RegistryState.empty)))) := by
  have h1 : (EasyMCP.construct rootConfigs methods t b c).1 =
      (rootConfigs.map CtorEvent.registerRoot ++ (methods.map methodEvents).flatten) ++
        [CtorEvent.serveCall] := by
    simp [EasyMCP.construct]
  refine ⟨?_, ?_, ?_⟩
  · rw [h1]
    exact List.getLast?_concat _
  · rw [h1, List.dropLast_concat]
    intro hmem
    rcases List.mem_append.mp hmem with hA | hB
    · rcases List.mem_map.mp hA with ⟨r, _, hr⟩
      exact CtorEvent.noConfusion hr
    · rcases List.mem_flatten.mp hB with ⟨l, hl, hx⟩
      rcases List.mem_map.mp hl with ⟨m, _, rfl⟩
      exact serveCall_not_mem_methodEvents m hx
  · intro ht hb hc
    subst ht; subst hb; subst hc
    rfl

/-- A class-level root config for the constructor example. -/
def sampleRoot : Root := { uri := "file://workspace", name := "workspace" }

/-- A decorated method registering the echo tool. -/
def sampleMethod : MethodMetadata :=
  { toolConfig := some echoTool, promptConfig := none, rootConfig := none,
    resourceConfig := none, resourceTemplateConfig := none }

/-- C10 witness: one class-level root and one tool-decorated method —
the trace ends in the serve call, nothing follows it, and negotiation
sees both registrations. -/
theorem EasyMCP_construct_registrations_before_serve_witness :
    (EasyMCP.construct [sampleRoot] [sampleMethod]
        (Except.ok ()) (Except.ok ()) (Except.ok ())).1.getLast? =
      some CtorEvent.serveCall ∧
    CtorEvent.serveCall ∉
      (EasyMCP.construct [sampleRoot] [sampleMethod]
        (Except.ok ()) (Except.ok ()) (Except.ok ())).1.dropLast ∧
    (EasyMCP.construct [sampleRoot] [sampleMethod]
        (Except.ok ()) (Except.ok ()) (Except.ok ())).2 =
      ServeOutcome.serving (registerCapabilities
        ([sampleMethod].foldl applyMethod
          ([sampleRoot].foldl RegistryState.root RegistryState.empty))) :=
  ⟨(EasyMCP_construct_registrations_before_serve [sampleRoot] [sampleMethod]
      (Except.ok ()) (Except.ok ()) (Except.ok ())).1,
   (EasyMCP_construct_registrations_before_serve [sampleRoot] [sampleMethod]
      (Except.ok ()) (Except.ok ()) (Except.ok ())).2.1,
   (EasyMCP_construct_registrations_before_serve [sampleRoot] [sampleMethod]
      (Except.ok ()) (Except.ok ()) (Except.ok ())).2.2 rfl rfl rfl⟩
